import Mathlib

/-!
Verification of the Ed Discussion SLO analyzer (ed_slo_analyzer.py).

Shallow embedding of the core data model and logic:
* ThreadStatus, ThreadEntry (the dataclass with its derived accessors),
* determine_thread_status (the classifier),
* the aggregation pipeline of _show_statistics (effective-answer filter,
  response times, SLO buckets, guard structure).

Timestamps are modelled as integers (seconds since the epoch).  The Python
code converts every timestamp into one reference time zone before
subtracting; a zone conversion does not change the instant, so latencies
(timedeltas, in seconds) are plain integer differences.  Hour values,
produced in Python by float division by 3600, are modelled as rationals.
-/

/-- Enumeration of thread status types (class ThreadStatus). -/
inductive ThreadStatus where
  | RESOLVED
  | ENDORSED
  | UNCONFIRMED
  | PENDING
deriving DecidableEq, Repr

/-- One raw answer record as the classifier reads it: the author role
string (Python reads answer.get with a default of the empty string for a
missing user or role), the endorsed flag (default False), and the answer
creation timestamp in seconds. -/
structure RawAnswer where
  role : String
  endorsed : Bool
  created_at : Int
deriving DecidableEq, Repr

/-- The ThreadEntry dataclass: a classified question thread. -/
structure ThreadEntry where
  id : Int
  category : String
  subcategory : String
  subsubcategory : String
  created_at : Int
  status : ThreadStatus
  first_answer_at : Option Int
  response_delay : Option Int
deriving DecidableEq, Repr

/-- ThreadEntry.is_effectively_answered: the if-chain of the source. -/
def ThreadEntry.is_effectively_answered (t : ThreadEntry)
    (count_unconfirmed : Bool) : Bool :=
  if t.status = ThreadStatus.RESOLVED ∨ t.status = ThreadStatus.ENDORSED then
    true
  else if t.status = ThreadStatus.UNCONFIRMED ∧ count_unconfirmed = true then
    true
  else
    false

/-- ThreadEntry.response_delay_hours: Python tests the truthiness of the
Optional timedelta, so both None and a zero timedelta fall through to the
None branch; otherwise total_seconds() / 3600. -/
def ThreadEntry.response_delay_hours (t : ThreadEntry) : Option ℚ :=
  match t.response_delay with
  | some d => if d ≠ 0 then some ((d : ℚ) / 3600) else none
  | none => none

/-- ThreadEntry.category_path: starts from [self.category] unconditionally,
then appends subcategory and subsubcategory only when non-empty, and joins
with a dash. -/
def ThreadEntry.category_path (t : ThreadEntry) : String :=
  let parts := [t.category]
  let parts := if t.subcategory ≠ "" then parts ++ [t.subcategory] else parts
  let parts := if t.subsubcategory ≠ "" then parts ++ [t.subsubcategory] else parts
  String.intercalate "-" parts

/-- The role test of the classifier loop: role in a list of admin and staff. -/
def isStaffAnswer (a : RawAnswer) : Bool :=
  a.role == "admin" || a.role == "staff"

/-- The qualification test of the classifier loop: staff or admin role, or
the endorsed flag. -/
def isQualifyingAnswer (a : RawAnswer) : Bool :=
  isStaffAnswer a || a.endorsed

/-- EdAnalyzer._determine_thread_status.  The Python for-loop with break
finds the first qualifying answer in arrival order; List.find? is that
loop.  Returns (status, first answer timestamp, response delay). -/
def determine_thread_status (answers : List RawAnswer) (created_at : Int) :
    ThreadStatus × Option Int × Option Int :=
  match answers with
  | [] => (ThreadStatus.PENDING, none, none)
  | first :: _ =>
    match answers.find? isQualifyingAnswer with
    | some first_qualifying_answer =>
      let has_staff_answer := answers.any isStaffAnswer
      let final_status :=
        if has_staff_answer then ThreadStatus.RESOLVED else ThreadStatus.ENDORSED
      (final_status, some first_qualifying_answer.created_at,
        some (first_qualifying_answer.created_at - created_at))
    | none =>
      (ThreadStatus.UNCONFIRMED, some first.created_at,
        some (first.created_at - created_at))

example :
    determine_thread_status [⟨"student", true, 100⟩, ⟨"admin", false, 200⟩] 50 =
      (ThreadStatus.RESOLVED, some 100, some 50) := by decide

example :
    determine_thread_status [⟨"student", false, 100⟩] 50 =
      (ThreadStatus.UNCONFIRMED, some 100, some 50) := by decide

example : determine_thread_status [] 50 = (ThreadStatus.PENDING, none, none) := by
  decide

/-! The aggregation pipeline of EdAnalyzer._show_statistics, modelled as a
pure function producing the report values instead of printing them. -/

/-- answered_threads: the effectively-answered subset of the input. -/
def answeredThreads (threads : List ThreadEntry) (count_unconfirmed : Bool) :
    List ThreadEntry :=
  threads.filter (fun t => t.is_effectively_answered count_unconfirmed)

/-- response_times: hour values of the answered threads whose
response_delay_hours is not None. -/
def responseTimes (threads : List ThreadEntry) (count_unconfirmed : Bool) :
    List ℚ :=
  (answeredThreads threads count_unconfirmed).filterMap
    (fun t => t.response_delay_hours)

/-- within_6h, within_24h and within_48h of the SLO metrics block:
counts over response_times with inclusive boundaries. -/
def sloBuckets (threads : List ThreadEntry) (count_unconfirmed : Bool) :
    Nat × Nat × Nat :=
  let rts := responseTimes threads count_unconfirmed
  (rts.countP (fun x => decide (x ≤ 6)),
   rts.countP (fun x => decide (x ≤ 24)),
   rts.countP (fun x => decide (x ≤ 48)))

/-- The status breakdown (Resolved, Endorsed, Unconfirmed, Pending). -/
def statusCounts (threads : List ThreadEntry) : Nat × Nat × Nat × Nat :=
  (threads.countP (fun t => decide (t.status = ThreadStatus.RESOLVED)),
   threads.countP (fun t => decide (t.status = ThreadStatus.ENDORSED)),
   threads.countP (fun t => decide (t.status = ThreadStatus.UNCONFIRMED)),
   threads.countP (fun t => decide (t.status = ThreadStatus.PENDING)))

/-- statistics.mean over a list, as used on the non-empty response_times. -/
def listMean (xs : List ℚ) : ℚ := xs.sum / (xs.length : ℚ)

/-- statistics.median: middle of the sorted list, or the average of the
two middle values when the length is even. -/
def listMedian (xs : List ℚ) : ℚ :=
  let s := xs.insertionSort (fun a b => a ≤ b)
  let n := s.length
  if n % 2 = 1 then s.getD (n / 2) 0
  else (s.getD (n / 2 - 1) 0 + s.getD (n / 2) 0) / 2

/-- min over a non-empty list (0 on empty, a case the code never reaches). -/
def listMin (xs : List ℚ) : ℚ :=
  match xs with
  | [] => 0
  | h :: t => t.foldl min h

/-- max over a non-empty list (0 on empty, a case the code never reaches). -/
def listMax (xs : List ℚ) : ℚ :=
  match xs with
  | [] => 0
  | h :: t => t.foldl max h

/-- The response-time analysis and SLO metrics section of the report. -/
structure RTSection where
  avg : ℚ
  med : ℚ
  fastest : ℚ
  slowest : ℚ
  within_6h : Nat
  within_24h : Nat
  within_48h : Nat
  frac_6h : ℚ
  frac_24h : ℚ
  frac_48h : ℚ
deriving DecidableEq, Repr

/-- What _show_statistics reports: either the no-questions short-circuit,
or the breakdown, with the response-time section present only when its
guards pass. -/
inductive StatReport where
  | noQuestions
  | report (total_count answered_count : Nat) (answered_pct : ℚ)
      (counts : Nat × Nat × Nat × Nat) (rt : Option RTSection)
deriving DecidableEq, Repr

/-- EdAnalyzer._show_statistics as a pure function.  The guard structure of
the source is kept: empty input short-circuits before any ratio; the
response-time section exists only when answered_threads and then
response_times are non-empty; every SLO fraction divides by
answered_count. -/
def show_statistics (threads : List ThreadEntry) (count_unconfirmed : Bool) :
    StatReport :=
  if threads = [] then .noQuestions
  else
    let total_count := threads.length
    let answered_count := (answeredThreads threads count_unconfirmed).length
    let rts := responseTimes threads count_unconfirmed
    let buckets := sloBuckets threads count_unconfirmed
    let rt : Option RTSection :=
      if answeredThreads threads count_unconfirmed = [] then none
      else if rts = [] then none
      else some
        { avg := listMean rts
          med := listMedian rts
          fastest := listMin rts
          slowest := listMax rts
          within_6h := buckets.1
          within_24h := buckets.2.1
          within_48h := buckets.2.2
          frac_6h := (buckets.1 : ℚ) / (answered_count : ℚ) * 100
          frac_24h := (buckets.2.1 : ℚ) / (answered_count : ℚ) * 100
          frac_48h := (buckets.2.2 : ℚ) / (answered_count : ℚ) * 100 }
    .report total_count answered_count
      ((answered_count : ℚ) / (total_count : ℚ) * 100)
      (statusCounts threads) rt

/-- The category-path builder as the spec words it: join only the
non-empty segments among category, subcategory and subsubcategory with the
separator.  Stated for comparison with ThreadEntry.category_path. -/
def category_path_spec (t : ThreadEntry) : String :=
  String.intercalate "-"
    (([t.category, t.subcategory, t.subsubcategory]).filter (fun s => s != ""))

example :
    show_statistics
      [{ id := 1, category := "hw", subcategory := "", subsubcategory := "",
         created_at := 0, status := ThreadStatus.RESOLVED,
         first_answer_at := some 7200, response_delay := some 7200 }] false =
      .report 1 1 100 (1, 0, 0, 0)
        (some { avg := 2, med := 2, fastest := 2, slowest := 2,
                within_6h := 1, within_24h := 1, within_48h := 1,
                frac_6h := 100, frac_24h := 100, frac_48h := 100 }) := by
  norm_num [show_statistics, answeredThreads, responseTimes, sloBuckets,
    statusCounts, listMean, listMedian, listMin, listMax,
    ThreadEntry.is_effectively_answered, ThreadEntry.response_delay_hours,
    List.filter, List.filterMap, List.countP, List.countP.go,
    List.insertionSort, List.orderedInsert]
  decide

/-! Theorems for the claims. -/

/-- C8: for every thread whose raw answer list is empty, the classifier
returns status Pending with no first-answer timestamp and no latency. -/
theorem C8_empty_answers_pending (created_at : Int) :
    determine_thread_status [] created_at = (ThreadStatus.PENDING, none, none) :=
  rfl

/-- C9: for every thread with a non-empty answer list containing no
qualifying answer, the classifier returns Unconfirmed and the timestamp of
the first answer in arrival order, regardless of its author. -/
theorem C9_unconfirmed_uses_first_answer (first : RawAnswer)
    (rest : List RawAnswer) (created_at : Int)
    (h : ∀ a ∈ first :: rest, isQualifyingAnswer a = false) :
    determine_thread_status (first :: rest) created_at =
      (ThreadStatus.UNCONFIRMED, some first.created_at,
        some (first.created_at - created_at)) := by
  have hfind : (first :: rest).find? isQualifyingAnswer = none :=
    List.find?_eq_none.mpr (fun a ha => by simp [h a ha])
  simp [determine_thread_status, hfind]

theorem C9_witness :
    determine_thread_status [RawAnswer.mk "student" false 10] 3 =
      (ThreadStatus.UNCONFIRMED, some 10, some 7) := by
  have h := C9_unconfirmed_uses_first_answer
    (RawAnswer.mk "student" false 10) [] 3 (by decide)
  simpa using h

/-- C3: the classifier yields status Pending exactly when the response
latency is absent, and exactly when the first-answer timestamp is absent,
for every input. -/
theorem C3_pending_iff_latency_absent (answers : List RawAnswer)
    (created_at : Int) :
    (((determine_thread_status answers created_at).1 = ThreadStatus.PENDING) ↔
      (determine_thread_status answers created_at).2.2 = none) ∧
    (((determine_thread_status answers created_at).1 = ThreadStatus.PENDING) ↔
      (determine_thread_status answers created_at).2.1 = none) := by
  cases answers with
  | nil => simp [determine_thread_status]
  | cons first rest =>
    unfold determine_thread_status
    cases hfind : (first :: rest).find? isQualifyingAnswer with
    | none => simp
    | some fq =>
      by_cases hs : (first :: rest).any isStaffAnswer = true <;> simp [hs]

/-- C2: for every thread whose answer list contains at least one answer
authored by role admin or staff, in any position, the final status is
Resolved. -/
theorem C2_staff_anywhere_resolved (answers : List RawAnswer)
    (created_at : Int) (hstaff : ∃ a ∈ answers, isStaffAnswer a = true) :
    (determine_thread_status answers created_at).1 = ThreadStatus.RESOLVED := by
  rcases hstaff with ⟨a, ha, hs⟩
  cases answers with
  | nil => simp at ha
  | cons first rest =>
    have hq : isQualifyingAnswer a = true := by
      simp [isQualifyingAnswer, hs]
    have hany : (first :: rest).any isStaffAnswer = true :=
      List.any_eq_true.mpr ⟨a, ha, hs⟩
    unfold determine_thread_status
    cases hfind : (first :: rest).find? isQualifyingAnswer with
    | none =>
      exfalso
      exact (List.find?_eq_none.mp hfind) a ha hq
    | some fq => simp [hany]

theorem C2_witness :
    (determine_thread_status
      [RawAnswer.mk "student" false 10, RawAnswer.mk "staff" false 20] 1).1 =
      ThreadStatus.RESOLVED :=
  C2_staff_anywhere_resolved _ 1
    ⟨RawAnswer.mk "staff" false 20, by decide, by decide⟩

/-- C1: when the answer list has a qualifying answer (fq being the first
one in arrival order, matched by role-or-endorsement) and an admin or staff
answer exists anywhere in the list, the classifier returns Resolved and
takes the first-answer timestamp and latency from fq, not from the first
admin or staff answer. -/
theorem C1_resolved_latency_from_first_qualifying (answers : List RawAnswer)
    (created_at : Int) (fq : RawAnswer)
    (hfind : answers.find? isQualifyingAnswer = some fq)
    (hstaff : ∃ a ∈ answers, isStaffAnswer a = true) :
    determine_thread_status answers created_at =
      (ThreadStatus.RESOLVED, some fq.created_at,
        some (fq.created_at - created_at)) := by
  cases answers with
  | nil => simp at hfind
  | cons first rest =>
    have hany : (first :: rest).any isStaffAnswer = true := by
      rcases hstaff with ⟨a, ha, hs⟩
      exact List.any_eq_true.mpr ⟨a, ha, hs⟩
    simp [determine_thread_status, hfind, hany]

theorem C1_witness :
    determine_thread_status
      [RawAnswer.mk "student" true 100, RawAnswer.mk "admin" false 200] 50 =
      (ThreadStatus.RESOLVED, some 100, some 50) := by
  have h := C1_resolved_latency_from_first_qualifying
    [RawAnswer.mk "student" true 100, RawAnswer.mk "admin" false 200] 50
    (RawAnswer.mk "student" true 100)
    (by decide)
    ⟨RawAnswer.mk "admin" false 200, by decide, by decide⟩
  simpa using h

/-- C4 counterexample: with an empty category and subsubcategory B, the
code renders the path as -B (the empty category segment is always emitted,
giving a leading separator), which differs from the join of only the
non-empty segments that the claim describes. -/
theorem C4_counterexample :
    (ThreadEntry.mk 0 "" "" "B" 0 ThreadStatus.PENDING none none).category_path
      = "-B" ∧
    (ThreadEntry.mk 0 "" "" "B" 0 ThreadStatus.PENDING none none).category_path
      ≠ category_path_spec
        (ThreadEntry.mk 0 "" "" "B" 0 ThreadStatus.PENDING none none) ∧
    category_path_spec
      (ThreadEntry.mk 0 "" "" "B" 0 ThreadStatus.PENDING none none) = "B" := by
  refine ⟨by decide, by decide, by decide⟩

/-- C4 amended: whenever the category segment is non-empty, the rendered
path equals the join of the non-empty segments (so A, empty, B gives A-B
with no doubled or trailing separator); when the category segment is
empty the code still emits it, producing a leading separator. -/
theorem C4_amended_nonempty_category (t : ThreadEntry) (h : t.category ≠ "") :
    t.category_path = category_path_spec t := by
  rcases t with ⟨i, c, sub, subsub, ca, st, fa, rd⟩
  simp only [ThreadEntry.category_path, category_path_spec] at *
  by_cases h1 : sub = "" <;> by_cases h2 : subsub = "" <;>
    simp [h, h1, h2]

theorem C4_amended_witness :
    (ThreadEntry.mk 0 "A" "" "B" 0 ThreadStatus.PENDING none none).category_path
      = "A-B" ∧
    (ThreadEntry.mk 0 "A" "" "B" 0 ThreadStatus.PENDING none none).category_path
      = category_path_spec
        (ThreadEntry.mk 0 "A" "" "B" 0 ThreadStatus.PENDING none none) :=
  ⟨by decide,
   C4_amended_nonempty_category
     (ThreadEntry.mk 0 "A" "" "B" 0 ThreadStatus.PENDING none none) (by decide)⟩

/-- C5: for any set of classified threads and either policy-flag value,
the SLO bucket counts are monotonic and bounded by the effectively
answered count used as the denominator of the three fractions. -/
theorem C5_slo_buckets_monotonic (threads : List ThreadEntry) (cu : Bool) :
    (sloBuckets threads cu).1 ≤ (sloBuckets threads cu).2.1 ∧
    (sloBuckets threads cu).2.1 ≤ (sloBuckets threads cu).2.2 ∧
    (sloBuckets threads cu).2.2 ≤ (answeredThreads threads cu).length := by
  unfold sloBuckets
  refine ⟨?_, ?_, ?_⟩
  · exact List.countP_mono_left (fun x _ hx =>
      decide_eq_true (le_trans (of_decide_eq_true hx) (by norm_num)))
  · exact List.countP_mono_left (fun x _ hx =>
      decide_eq_true (le_trans (of_decide_eq_true hx) (by norm_num)))
  · have h1 : (responseTimes threads cu).length ≤
        (answeredThreads threads cu).length := by
      unfold responseTimes
      exact List.length_filterMap_le _ _
    show List.countP (fun x => decide (x ≤ 48)) (responseTimes threads cu) ≤
      (answeredThreads threads cu).length
    exact le_trans (List.countP_le_length _) h1

/-- C6: the effective-answer predicate is exactly the truth table of the
claim: true on Resolved and Endorsed, equal to the policy flag on
Unconfirmed, false on Pending. -/
theorem C6_effective_answer_truth_table (t : ThreadEntry) (cu : Bool) :
    t.is_effectively_answered cu =
      match t.status, cu with
      | ThreadStatus.RESOLVED, _ => true
      | ThreadStatus.ENDORSED, _ => true
      | ThreadStatus.UNCONFIRMED, b => b
      | ThreadStatus.PENDING, _ => false := by
  rcases t with ⟨i, c, sub, subsub, ca, st, fa, rd⟩
  cases st <;> cases cu <;> rfl

/-- C7: the aggregator never divides by zero: the empty input
short-circuits to the no-questions report before any ratio, every full
report has a positive total count (the denominator of the answered
percentage), and whenever the response-time and SLO section is present the
effectively-answered count (the denominator of the three SLO fractions) is
positive and the response-time list (the mean denominator) is non-empty. -/
theorem C7_no_division_by_zero (threads : List ThreadEntry) (cu : Bool)
    (h : threads ≠ []) :
    show_statistics ([] : List ThreadEntry) cu = StatReport.noQuestions ∧
    ∃ tc ac pct sc rt,
      show_statistics threads cu = StatReport.report tc ac pct sc rt ∧
      0 < tc ∧
      (∀ sec, rt = some sec → 0 < ac ∧ responseTimes threads cu ≠ []) := by
  constructor
  · simp [show_statistics]
  · unfold show_statistics
    rw [if_neg h]
    refine ⟨threads.length, (answeredThreads threads cu).length, _, _, _,
      rfl, List.length_pos.mpr h, ?_⟩
    intro sec hsec
    by_cases h1 : answeredThreads threads cu = []
    · rw [if_pos h1] at hsec
      exact absurd hsec (by simp)
    · rw [if_neg h1] at hsec
      by_cases h2 : responseTimes threads cu = []
      · rw [if_pos h2] at hsec
        exact absurd hsec (by simp)
      · exact ⟨List.length_pos.mpr h1, h2⟩

theorem C7_witness :
    show_statistics ([] : List ThreadEntry) false = StatReport.noQuestions ∧
    ∃ tc ac pct sc rt,
      show_statistics
        [ThreadEntry.mk 1 "hw" "" "" 0 ThreadStatus.RESOLVED (some 7200)
          (some 7200)] false = StatReport.report tc ac pct sc rt ∧
      0 < tc ∧
      (∀ sec, rt = some sec → 0 < ac ∧
        responseTimes
          [ThreadEntry.mk 1 "hw" "" "" 0 ThreadStatus.RESOLVED (some 7200)
            (some 7200)] false ≠ []) :=
  C7_no_division_by_zero
    [ThreadEntry.mk 1 "hw" "" "" 0 ThreadStatus.RESOLVED (some 7200)
      (some 7200)] false (by decide)

/-- C10: a classified thread whose stored response latency is exactly zero
has response_delay_hours None even though it is effectively answered (so
not Pending), and it is dropped from the response-time list feeding the
statistics and SLO buckets while still counted as answered. -/
theorem C10_zero_delay_excluded_from_stats (t : ThreadEntry) (cu : Bool)
    (hdelay : t.response_delay = some 0)
    (hans : t.is_effectively_answered cu = true) :
    t.response_delay_hours = none ∧
    t ∈ answeredThreads [t] cu ∧
    responseTimes [t] cu = [] := by
  have h1 : t.response_delay_hours = none := by
    simp [ThreadEntry.response_delay_hours, hdelay]
  refine ⟨h1, ?_, ?_⟩
  · simp [answeredThreads, List.mem_filter, hans]
  · simp [responseTimes, answeredThreads, hans, h1, List.filter, List.filterMap]

theorem C10_witness :
    (ThreadEntry.mk 2 "hw" "" "" 0 ThreadStatus.RESOLVED (some 0)
      (some 0)).response_delay_hours = none ∧
    ThreadEntry.mk 2 "hw" "" "" 0 ThreadStatus.RESOLVED (some 0) (some 0) ∈
      answeredThreads
        [ThreadEntry.mk 2 "hw" "" "" 0 ThreadStatus.RESOLVED (some 0) (some 0)]
        false ∧
    responseTimes
      [ThreadEntry.mk 2 "hw" "" "" 0 ThreadStatus.RESOLVED (some 0) (some 0)]
      false = [] :=
  C10_zero_delay_excluded_from_stats
    (ThreadEntry.mk 2 "hw" "" "" 0 ThreadStatus.RESOLVED (some 0) (some 0))
    false (by decide) (by decide)
